import Mathlib

/-!
Verification development for the dynamic reporting pipeline
(`routes/report_api_routes.py`, `services/user_function_access_service.py`).

The Python code is shallowly embedded: pure fragments become Lean
functions over `String`, `List` and a `Cell` type modelling database
scalars.  String operations model Python's ASCII behaviour (the SQL
texts and identifiers involved are ASCII).  Python `float` values are
modelled by `ℚ`; `float(...)` parsing is modelled on the plain decimal
fragment of Python's grammar, which covers every value the code paths
under study can see.
-/

namespace ReportApi

/-! ## Python string primitives

Strings are handled as `List Char` internally (Lean's `String.trim`,
`String.toUpper` and friends do not reduce in the kernel); the Python
operations `strip`, `upper`, `lower`, `startswith` are embedded on
character lists, for ASCII inputs. -/

/-- Python `str.strip()` on ASCII text: drop whitespace on both ends. -/
def pyStrip (l : List Char) : List Char :=
  ((l.dropWhile Char.isWhitespace).reverse.dropWhile Char.isWhitespace).reverse

/-- Python `str.upper()` on ASCII text. -/
def pyUpper (l : List Char) : List Char :=
  l.map Char.toUpper

/-- Python `str.lower()` on ASCII text. -/
def pyLower (l : List Char) : List Char :=
  l.map Char.toLower

/-! ## SQL security check (`execute_sql_query`, lines 1206-1234)

`sql_upper = sql_query.upper().strip()`; reject when the text does not
start with `SELECT`; then scan for each denylisted keyword with the
regex `\bKW\b` (word-boundary match) and reject citing the first
keyword found, in denylist order. -/

/-- Python regex word character (`\w`) on ASCII text: letter, digit or
underscore. -/
def isWordChar (c : Char) : Bool :=
  c.isAlphanum || c = '_'

/-- A word boundary is satisfied next to the string edge or next to a
non-word character. -/
def boundaryOk : Option Char → Bool
  | none => true
  | some c => !(isWordChar c)

/-- Does `kw` occur at the head of `s`, with `prev` the character just
before this position, as a whole word (`\bkw\b`)? -/
def matchesWordAt (kw s : List Char) (prev : Option Char) : Bool :=
  kw.isPrefixOf s && boundaryOk prev && boundaryOk (s.drop kw.length).head?

/-- Scan of `re.search(rf'\b{kw}\b', s)` starting after character `prev`. -/
def containsWordFrom (kw : List Char) : Option Char → List Char → Bool
  | prev, [] => matchesWordAt kw [] prev
  | prev, c :: rest => matchesWordAt kw (c :: rest) prev || containsWordFrom kw (some c) rest

/-- `re.search(rf'\b{keyword}\b', sql_upper)` as a whole-word containment
test. -/
def containsWord (kw : String) (s : List Char) : Bool :=
  containsWordFrom kw.toList none s

/-- The denylist of `execute_sql_query`, in source order. -/
def dangerousKeywords : List String :=
  ["DROP", "DELETE", "UPDATE", "INSERT", "ALTER", "CREATE", "TRUNCATE", "EXEC", "EXECUTE"]

/-- Outcome of the pre-connection validation of `execute_sql_query`. -/
inductive SqlCheckResult
  | emptyQuery
  | notSelect
  | dangerousKeyword (kw : String)
  | allowed
  deriving DecidableEq, Repr

/-- The validation performed by `execute_sql_query` before any database
connection is opened: empty check, `startswith('SELECT')` on the
upper-cased stripped text, then the keyword denylist scan. -/
def sqlSecurityCheck (sql : String) : SqlCheckResult :=
  let sqlQuery := pyStrip sql.toList
  if sqlQuery = [] then .emptyQuery
  else
    let sqlUpper := pyStrip (pyUpper sqlQuery)
    if !("SELECT".toList.isPrefixOf sqlUpper) then .notSelect
    else
      match dangerousKeywords.find? (fun kw => containsWord kw sqlUpper) with
      | some kw => .dangerousKeyword kw
      | none => .allowed

/-- Result of the endpoint seen from the caller: either a rejection
produced by the validation alone, or an execution that consults the
database. -/
inductive ExecOutcome (α : Type)
  | rejected (r : SqlCheckResult)
  | executed (dbResult : α)
  deriving DecidableEq, Repr

/-- The endpoint opens a connection and runs the query only after the
validation passes; `db` stands for everything the database returns. -/
def executeSqlEndpoint {α : Type} (sql : String) (db : α) : ExecOutcome α :=
  match sqlSecurityCheck sql with
  | .allowed => .executed db
  | r => .rejected r

/-! ## Database scalar values

`Cell` models the Python values a pyodbc row can hold.  Python floats
are modelled as rationals; `datetime`/`date` values carry their
`isoformat()` rendering (which `str()` also yields up to the separator,
abstracted here); `other` models any non-primitive value together with
the success/failure and results of `str()` and `repr()` on it. -/

inductive Cell where
  | null
  | str (s : String)
  | int (n : Int)
  | bool (b : Bool)
  | num (q : ℚ)
  | datetime (iso : String)
  | date (iso : String)
  | other (strOk : Bool) (strForm : String) (reprOk : Bool) (reprForm : String)
  deriving DecidableEq, Repr

/-- Best-effort rendering of a Python float value (`str(f)`); the
fractional rendering is abstracted through the rational's fields. -/
def floatStr (q : ℚ) : String :=
  if q.den = 1 then toString q.num ++ ".0"
  else toString q.num ++ "/" ++ toString q.den

/-- Python `str(value)` for the cell values above. -/
def pyStr : Cell → String
  | .null => "None"
  | .str s => s
  | .int n => toString n
  | .bool b => if b then "True" else "False"
  | .num q => floatStr q
  | .datetime iso => iso
  | .date iso => iso
  | .other _ s _ _ => s

/-- `convert_value_safely` (lines 1178-1197): `None` becomes the empty
string, primitive scalars their string form, `datetime`/`date` their
ISO-8601 `isoformat()`, anything else `str()` falling back to `repr()`
and then to the placeholder; the function never raises. -/
def convert_value_safely : Cell → String
  | .null => ""
  | .str s => s
  | .int n => toString n
  | .bool b => if b then "True" else "False"
  | .num q => floatStr q
  | .datetime iso => iso
  | .date iso => iso
  | .other strOk strForm reprOk reprForm =>
      if strOk then strForm
      else if reprOk then reprForm
      else "[Unsupported Type]"

/-- Value of the digit list `l` read in base 10 (digits are ASCII). -/
def digitsVal (l : List Char) : ℕ :=
  l.foldl (fun a c => a * 10 + (c.toNat - 48)) 0

/-- Python `float(s)` on the plain decimal fragment of its grammar
(optional sign, digits with an optional decimal point); exponents and
the special values are outside the modelled fragment. -/
def pyFloatOfChars (l : List Char) : Option ℚ :=
  let l := pyStrip l
  let (neg, l) :=
    match l with
    | '+' :: r => (false, r)
    | '-' :: r => (true, r)
    | r => (false, r)
  let intPart := l.takeWhile Char.isDigit
  let rest := l.dropWhile Char.isDigit
  match rest with
  | [] =>
      if intPart = [] then none
      else
        let n : Int := (digitsVal intPart : ℕ)
        some (mkRat (if neg then -n else n) 1)
  | '.' :: frac =>
      if frac.all Char.isDigit && !(intPart = [] && frac = []) then
        let n : Int := ((digitsVal intPart) * 10 ^ frac.length + digitsVal frac : ℕ)
        some (mkRat (if neg then -n else n) (10 ^ frac.length))
      else none
  | _ => none

/-- Python `float(value)` on a cell: parses strings, converts ints and
bools, keeps floats, and raises (`none`) on everything else. -/
def pyFloatCell : Cell → Option ℚ
  | .str s => pyFloatOfChars s.toList
  | .int n => some (mkRat n 1)
  | .bool b => some (if b then 1 else 0)
  | .num q => some q
  | _ => none

/-- `float(y_val) if not isinstance(y_val, (int, float)) else y_val`
(line 599): ints, floats (and bools, which satisfy
`isinstance(_, int)`) pass through, anything else goes through
`float()`. -/
def extractNum : Cell → Option ℚ
  | .int n => some (mkRat n 1)
  | .num q => some q
  | .bool b => some (if b then 1 else 0)
  | v => pyFloatCell v

/-! ## Ad-hoc executor row fetching (`execute_sql_query`, lines 1299-1366)

Python dicts keyed by strings are modelled as association lists with
Python's semantics: assignment to an existing key overwrites its value
in place, a new key is appended. -/

/-- `d[k] = v` on a Python dict. -/
def pyDictInsert {α : Type} (d : List (String × α)) (k : String) (v : α) : List (String × α) :=
  if d.any (fun p => p.1 = k) then d.map (fun p => if p.1 = k then (k, v) else p)
  else d ++ [(k, v)]

/-- Build a dict by storing `g idx` under each column name, in column
order — the shape of both row-building loops of the executor. -/
def pyDictBuild {α : Type} (columns : List String) (g : ℕ → α) : List (String × α) :=
  columns.enum.foldl (fun d ic => pyDictInsert d ic.2 (g ic.1)) []

/-- `limit = int(body.get('limit', 1000))`: 1000 when no limit is
supplied. -/
def getLimit (limitField : Option Int) : Int :=
  limitField.getD 1000

/-- Python's `xs[:n]` for an arbitrary integer `n`. -/
def pySlice {α : Type} (n : Int) (xs : List α) : List α :=
  if 0 ≤ n then xs.take n.toNat
  else xs.take (xs.length - (-n).toNat)

/-- One row of the bulk path (lines 1313-1318): each column's cell goes
through `convert_value_safely`.  Cursor rows always have one cell per
described column; a missing index is padded with `None` in the model. -/
def bulkRowDict (columns : List String) (row : List Cell) : List (String × String) :=
  pyDictBuild columns (fun idx => convert_value_safely (row.getD idx .null))

/-- The bulk fetch path: `for row in rows[:max_rows]` accumulating
converted row dicts. -/
def executeBulk (columns : List String) (maxRows : Int) (rows : List (List Cell)) :
    List (List (String × String)) :=
  (pySlice maxRows rows).foldl (fun acc row => acc ++ [bulkRowDict columns row]) []

/-- Outcome of evaluating `row[idx]` in the degraded path: the access
either succeeds with a cell, or raises one of the anticipated errors
(`TypeError`/`ValueError`/`AttributeError`/`IndexError`), or raises
some other exception. -/
inductive CellAccess where
  | ok (c : Cell)
  | typeErr
  | otherErr
  deriving DecidableEq, Repr

/-- Outcome of one `cursor.fetchone()` call in the degraded path. -/
inductive FetchResult where
  | row (cells : List CellAccess)
  | fetchError
  deriving DecidableEq, Repr

/-- Cell text in the degraded path (lines 1335-1347): successful access
goes through `convert_value_safely`; the anticipated access errors
(including an out-of-range index) yield `'[Unsupported Type]'`; any
other error yields `'[Error]'`. -/
def cellAccessString : Option CellAccess → String
  | some (.ok c) => convert_value_safely c
  | some .typeErr => "[Unsupported Type]"
  | some .otherErr => "[Error]"
  | none => "[Unsupported Type]"

/-- One row dict of the degraded path: every described column gets a
value, each from its own guarded access. -/
def degradedRowDict (columns : List String) (cells : List CellAccess) : List (String × String) :=
  pyDictBuild columns (fun idx => cellAccessString (cells.get? idx))

/-- The degraded row-by-row loop (lines 1327-1357): fetch while
`row_count < max_rows`; an exhausted cursor or a row-level fetch error
stops the loop, keeping the rows accumulated so far; a row is counted
only if its dict is non-empty. -/
def degradedFetch (columns : List String) (maxRows : Int) :
    Int → List FetchResult → List (List (String × String))
  | _, [] => []
  | count, item :: rest =>
    if count < maxRows then
      match item with
      | .fetchError => []
      | .row cells =>
        let rd := degradedRowDict columns cells
        if rd.isEmpty then degradedFetch columns maxRows count rest
        else rd :: degradedFetch columns maxRows (count + 1) rest
    else []

/-- What the cursor yields after `cursor.execute`: either a bulk
`fetchall` result, or a `fetchall` failure whose re-issued query is then
consumed row by row. -/
inductive FetchOutcome where
  | bulk (rows : List (List Cell))
  | bulkFailed (script : List FetchResult)
  deriving DecidableEq, Repr

/-- Response of `/api/reports/execute-sql` after a successful
`cursor.execute` (lines 1361-1366). -/
structure SqlExecResponse where
  success : Bool
  columns : List String
  rows : List (List (String × String))
  total : ℕ
  deriving DecidableEq, Repr

/-- Row materialisation and response assembly of the executor: both the
bulk path and the degraded fallback end in the same `success=True`
response carrying whatever rows were accumulated. -/
def sqlExecResponse (columns : List String) (maxRows : Int) (f : FetchOutcome) :
    SqlExecResponse :=
  let rs :=
    match f with
    | .bulk rows => executeBulk columns maxRows rows
    | .bulkFailed script => degradedFetch columns maxRows 0 script
  { success := true, columns := columns, rows := rs, total := rs.length }

/-! ## Export format resolution (`generate_dynamic_report`, lines 333-357) -/

/-- The `format_mapping` dict lookup with the identity default. -/
def formatMapping (f : List Char) : List Char :=
  if f = "xlsx".toList then "excel".toList
  else if f = "xls".toList then "excel".toList
  else if f = "doc".toList then "word".toList
  else if f = "docx".toList then "word".toList
  else f

/-- Format normalisation: a string field is lower-cased and stripped,
a non-string field (modelled by `none`; an absent field yields the
string `'excel'` and lands in the same place) becomes `'excel'`; the
alias map is applied; anything outside `{excel, pdf, word}` falls back
to `'excel'`. -/
def resolveFormat (raw : Option String) : String :=
  let f0 :=
    match raw with
    | some s => pyStrip (pyLower s.toList)
    | none => "excel".toList
  let f1 := formatMapping f0
  if f1 = "excel".toList || f1 = "pdf".toList || f1 = "word".toList then String.mk f1
  else "excel"

/-! ## Dynamic report shaping (`generate_dynamic_report`, lines 335-616) -/

/-- Line 336: `[col for col in columns if col != '#' and col.strip() != '']`. -/
def validColumns (cols : List String) : List String :=
  cols.filter (fun c => c ≠ "#" && pyStrip c.toList ≠ [])

/-- A result row in dict form, values still raw database cells. -/
abbrev RowD := List (String × Cell)

/-- `row_dict.get(col)`: `None` when the key is absent. -/
def rowGet (r : RowD) (k : String) : Cell :=
  (((r.find? (fun p => p.1 = k)).map Prod.snd)).getD .null

/-- `column_names[idx] if idx < len(column_names) else f"col_{idx}"`
(line 399). -/
def colNameAt (dbCols : List String) (idx : ℕ) : String :=
  dbCols.getD idx ("col_" ++ Nat.repr idx)

/-- Lines 396-402: dict form of a raw row. -/
def rowDictOf (dbCols : List String) (row : List Cell) : RowD :=
  row.enum.foldl (fun d ic => pyDictInsert d (colNameAt dbCols ic.1) ic.2) []

/-- Line 401: list form of a raw row —
`str(cell) if cell is not None else ''`. -/
def rowListOf (row : List Cell) : List String :=
  row.map (fun cell => if cell = .null then "" else pyStr cell)

/-- Lines 412-414: prepend the 1-based position, as a string, to every
row in order. -/
def withIndexRows (dataRows : List (List String)) : List (List String) :=
  dataRows.enum.map (fun ir => Nat.repr (ir.1 + 1) :: ir.2)

/-- Lines 417-418: inject the 1-based position under key `'#'` into
every row dict. -/
def withIndexDicts (dicts : List RowD) : List RowD :=
  dicts.enum.map (fun ir => pyDictInsert ir.2 "#" (.str (Nat.repr (ir.1 + 1))))

/-- The `chartConfig` object of the request; `none` fields are absent
or null fields. -/
structure ChartConfig where
  xKey : Option String
  yKey : Option String
  ctype : Option String
  deriving DecidableEq, Repr

/-- Python truthiness of an optional string field. -/
def truthyOpt : Option String → Bool
  | none => false
  | some s => s ≠ ""

/-- Line 453: the config is dropped when it is null or when both
`xKey` and `yKey` are falsy. -/
def filterChartConfig (raw : Option ChartConfig) : Option ChartConfig :=
  match raw with
  | none => none
  | some c => if !truthyOpt c.xKey && !truthyOpt c.yKey then none else some c

/-- Lines 470-478: a key participates when it is truthy and its
stripped text is non-empty and differs from `'none'`
case-insensitively. -/
def keyOk : Option String → Bool
  | none => false
  | some s =>
      s != "" &&
        (let t := pyStrip s.toList
         t != [] && pyLower t != "none".toList)

/-! ## Chart column matching (lines 496-530) -/

/-- `key.split('.')[-1].lower() if '.' in key else key.lower()`
(lines 501-502 and 512). -/
def normalizeKey (l : List Char) : List Char :=
  if l.contains '.' then pyLower ((l.reverse.takeWhile (fun c => c ≠ '.')).reverse)
  else pyLower l

/-- One iteration of the matching loop for one key: once a match is
held it is kept; otherwise the column is tried by exact match, then by
normalised (suffix-after-last-dot, case-insensitive) match, then by
full case-insensitive match. -/
def colMatchStep (key : String) (acc : Option String) (col : String) : Option String :=
  match acc with
  | some _ => acc
  | none =>
    if col = key then some col
    else if normalizeKey col.toList = normalizeKey key.toList then some col
    else if pyLower col.toList = pyLower key.toList then some col
    else none

/-- Column resolution for one binding key: the `'#'` pre-check
(lines 505-508) followed by the single pass over the available columns
(lines 511-529). -/
def findColMatch (key : String) (cols : List String) : Option String :=
  let init : Option String :=
    if key = "#" || normalizeKey key.toList = ['#'] then some "#" else none
  cols.foldl (colMatchStep key) init

/-! ## Chart dataset construction (lines 536-616) -/

/-- `collections.Counter` over a list of strings, as the
insertion-ordered key/count pairs Python iterates over. -/
def counterFold (xs : List String) : List (String × ℕ) :=
  xs.foldl (fun acc x =>
    if acc.any (fun p => p.1 = x) then acc.map (fun p => if p.1 = x then (p.1, p.2 + 1) else p)
    else acc ++ [(x, 1)]) []

/-- Lines 541-550: collect `str(x)` of every non-null x-cell, then
count occurrences; labels are the counter's keys, values its counts. -/
def countAggregation (xcol : String) (dicts : List RowD) : List String × List ℚ :=
  let xValues := dicts.foldl (fun acc r =>
    let v := rowGet r xcol
    if v = .null then acc else acc ++ [pyStr v]) []
  let counter := counterFold xValues
  (counter.map Prod.fst, counter.map (fun p => (p.2 : ℚ)))

/-- Lines 558-562: the numeric sample is every non-null y-cell of the
first 10 rows. -/
def sampleYVals (ycol : String) (dicts : List RowD) : List Cell :=
  (dicts.take 10).foldl (fun acc r =>
    let v := rowGet r ycol
    if v = .null then acc else acc ++ [v]) []

/-- Lines 565-571: the y-column counts as numeric when `float()` of the
first sample succeeds; an empty sample counts as non-numeric. -/
def isYNumeric (ycol : String) (dicts : List RowD) : Bool :=
  match (sampleYVals ycol dicts).head? with
  | none => false
  | some v => (pyFloatCell v).isSome

/-- Lines 578-588: for a categorical y on a pie chart, group by the
string value of the y-cells and count occurrences. -/
def pieDistribution (ycol : String) (dicts : List RowD) : List String × List ℚ :=
  let yValues := dicts.foldl (fun acc r =>
    let v := rowGet r ycol
    if v = .null then acc else acc ++ [pyStr v]) []
  let counter := counterFold yValues
  (counter.map Prod.fst, counter.map (fun p => (p.2 : ℚ)))

/-- Lines 592-604: the numeric extraction loop — a row contributes one
label/value pair exactly when its x- and y-cells are non-null and the
y-cell converts to a number; otherwise it is skipped. -/
def numericExtraction (xcol ycol : String) (dicts : List RowD) : List String × List ℚ :=
  dicts.foldl (fun lv r =>
    let xv := rowGet r xcol
    let yv := rowGet r ycol
    if xv ≠ .null ∧ yv ≠ .null then
      match extractNum yv with
      | some q => (lv.1 ++ [pyStr xv], lv.2 ++ [q])
      | none => lv
    else lv) ([], [])

/-- The three-way aggregation choice (lines 538, 577, 590): count
aggregation when the resolved y is the index column, pie distribution
for a non-numeric y on a pie chart, numeric extraction otherwise. -/
def chartLabelsValues (xcol ycol chartType : String) (dicts : List RowD) :
    List String × List ℚ :=
  if ycol = "#" then countAggregation xcol dicts
  else if !isYNumeric ycol dicts && chartType = "pie" then pieDistribution ycol dicts
  else numericExtraction xcol ycol dicts

/-- The produced chart dataset (`merged_config['chart_data']`,
lines 608-612). -/
structure ChartData where
  labels : List String
  values : List ℚ
  ctype : String
  deriving DecidableEq, Repr

/-- The whole chart-shaping stage (lines 453-616): config filtering,
the validity gate, column resolution, aggregation, and the non-empty
emission check.  `none` means no chart dataset is attached. -/
def shapeChart (rawCfg : Option ChartConfig) (dicts : List RowD) : Option ChartData :=
  match filterChartConfig rawCfg with
  | none => none
  | some cfg =>
    if keyOk cfg.xKey && keyOk cfg.yKey && !dicts.isEmpty then
      let xKey := String.mk (pyStrip (cfg.xKey.getD "").toList)
      let yKey := String.mk (pyStrip (cfg.yKey.getD "").toList)
      let chartType := cfg.ctype.getD "bar"
      let availableCols := (dicts.head?.getD []).map Prod.fst
      match findColMatch xKey availableCols, findColMatch yKey availableCols with
      | some xc, some yc =>
        let lv := chartLabelsValues xc yc chartType dicts
        if lv.1.length > 0 ∧ lv.2.length > 0 then some ⟨lv.1, lv.2, chartType⟩ else none
      | _, _ => none
    else none

/-! ## Export and preview pipelines -/

/-- Shaped output of the export endpoint: final column list, indexed
tabular rows, optional chart dataset. -/
structure ExportShaped where
  columns : List String
  rows : List (List String)
  chart : Option ChartData
  deriving DecidableEq, Repr

/-- The data-shaping core of `generate_dynamic_report` (lines 392-616),
after the query has produced `dbRows` with described columns `dbCols`:
dict and list forms of the rows are built, the index column `'#'` is
prepended to the *filtered* request columns and every row, the index is
injected into the dicts, and the chart stage runs on the dicts. -/
def exportShape (requestCols dbCols : List String) (dbRows : List (List Cell))
    (rawCfg : Option ChartConfig) : ExportShaped :=
  let dataRowsDict := dbRows.map (rowDictOf dbCols)
  let dataRows := dbRows.map rowListOf
  { columns := "#" :: validColumns requestCols
    rows := withIndexRows dataRows
    chart := shapeChart rawCfg (withIndexDicts dataRowsDict) }

/-- Line 807 of `preview_dynamic_report`:
`columns_with_index = [index_column_name] + columns` — the *unfiltered*
request columns. -/
def previewColumns (requestCols : List String) : List String :=
  "#" :: requestCols

/-- `dict(zip(ks, vs))`: `zip` truncates to the shorter list, duplicate
keys keep their first position and last value. -/
def pyDictOfZip (ks vs : List String) : List (String × String) :=
  (ks.zip vs).foldl (fun d kv => pyDictInsert d kv.1 kv.2) []

/-- Response payload of the preview endpoint (lines 799-822): columns
with the index prepended, at most `previewLimit` rows in dict form with
the 1-based index prepended to the value list before zipping, and the
full row count. -/
structure PreviewShaped where
  columns : List String
  rows : List (List (String × String))
  total : ℕ
  deriving DecidableEq, Repr

/-- The data-shaping core of `preview_dynamic_report` (lines 799-822). -/
def previewShape (requestCols : List String) (dbRows : List (List Cell))
    (previewLimit : Int) : PreviewShaped :=
  let colsIdx := previewColumns requestCols
  { columns := colsIdx
    rows := (pySlice previewLimit dbRows).enum.map (fun ir =>
      pyDictOfZip colsIdx (Nat.repr (ir.1 + 1) :: rowListOf ir.2))
    total := dbRows.length }

/-! ## User function access filters
(`services/user_function_access_service.py`, lines 80-175) -/

/-- `UserFunctionAccess` data class. -/
structure UserFunctionAccess where
  is_super_admin : Bool
  function_ids : List String
  deriving DecidableEq, Repr

/-- A single-quote character, as a string. -/
def sq : String := String.singleton (Char.ofNat 39)

/-- `f"'{s}'"`. -/
def quoted (s : String) : String := sq ++ s ++ sq

/-- `"','".join(ids)` wrapped in outer quotes: the text inside
`IN (...)`. -/
def quotedJoin (ids : List String) : String :=
  sq ++ String.intercalate (sq ++ "," ++ sq) ids ++ sq

/-- `build_control_function_filter` (lines 80-103). -/
def build_control_function_filter (tableAlias : String) (access : UserFunctionAccess)
    (selectedFunctionId : Option String) : String :=
  if truthyOpt selectedFunctionId then
    let sel := selectedFunctionId.getD ""
    if !access.is_super_admin && !(access.function_ids.contains sel) then " AND 1 = 0"
    else " AND EXISTS (SELECT 1 FROM [ControlFunctions] cf WHERE cf.control_id = " ++
      tableAlias ++ ".id AND cf.function_id = " ++ quoted sel ++ " AND cf.deletedAt IS NULL)"
  else if access.is_super_admin then ""
  else if access.function_ids.isEmpty then " AND 1 = 0"
  else " AND EXISTS (SELECT 1 FROM [ControlFunctions] cf WHERE cf.control_id = " ++
    tableAlias ++ ".id AND cf.function_id IN (" ++ quotedJoin access.function_ids ++
    ") AND cf.deletedAt IS NULL)"

/-- `build_risk_function_filter` (lines 105-127). -/
def build_risk_function_filter (tableAlias : String) (access : UserFunctionAccess)
    (selectedFunctionId : Option String) : String :=
  if truthyOpt selectedFunctionId then
    let sel := selectedFunctionId.getD ""
    if !access.is_super_admin && !(access.function_ids.contains sel) then " AND 1 = 0"
    else " AND EXISTS (SELECT 1 FROM [RiskFunctions] rf WHERE rf.risk_id = " ++
      tableAlias ++ ".id AND rf.function_id = " ++ quoted sel ++ " AND rf.deletedAt IS NULL)"
  else if access.is_super_admin then ""
  else if access.function_ids.isEmpty then " AND 1 = 0"
  else " AND EXISTS (SELECT 1 FROM [RiskFunctions] rf WHERE rf.risk_id = " ++
    tableAlias ++ ".id AND rf.function_id IN (" ++ quotedJoin access.function_ids ++
    ") AND rf.deletedAt IS NULL)"

/-- `build_kri_function_filter` (lines 129-151). -/
def build_kri_function_filter (tableAlias : String) (access : UserFunctionAccess)
    (selectedFunctionId : Option String) : String :=
  if truthyOpt selectedFunctionId then
    let sel := selectedFunctionId.getD ""
    if !access.is_super_admin && !(access.function_ids.contains sel) then " AND 1 = 0"
    else " AND " ++ tableAlias ++ ".related_function_id = " ++ quoted sel
  else if access.is_super_admin then ""
  else if access.function_ids.isEmpty then " AND 1 = 0"
  else " AND " ++ tableAlias ++ ".related_function_id IN (" ++
    quotedJoin access.function_ids ++ ")"

/-- `build_incident_function_filter` (lines 153-175). -/
def build_incident_function_filter (tableAlias : String) (access : UserFunctionAccess)
    (selectedFunctionId : Option String) : String :=
  if truthyOpt selectedFunctionId then
    let sel := selectedFunctionId.getD ""
    if !access.is_super_admin && !(access.function_ids.contains sel) then " AND 1 = 0"
    else " AND " ++ tableAlias ++ ".function_id = " ++ quoted sel
  else if access.is_super_admin then ""
  else if access.function_ids.isEmpty then " AND 1 = 0"
  else " AND " ++ tableAlias ++ ".function_id IN (" ++
    quotedJoin access.function_ids ++ ")"

/-! ## Specification-side definitions (for comparison with the code) -/

/-- Specification-side description of first-seen grouping order: the
distinct elements of a list, each at its first occurrence. -/
def firstSeenKeys (xs : List String) : List String :=
  xs.foldl (fun acc x => if x ∈ acc then acc else acc ++ [x]) []

/-- Specification-side column matcher from the claim: a strict priority
order over the whole column list — every column is tried for an exact
match before any column is tried for a suffix match, and so on. -/
def findColMatchSpec (key : String) (cols : List String) : Option String :=
  (cols.find? (fun col => col = key)).orElse (fun _ =>
    (cols.find? (fun col => normalizeKey col.toList = normalizeKey key.toList)).orElse (fun _ =>
      cols.find? (fun col => pyLower col.toList = pyLower key.toList)))

/-- The normalised text the security check actually scans:
`sql.strip().upper().strip()`. -/
def sqlUpperOf (sql : String) : List Char :=
  pyStrip (pyUpper (pyStrip sql.toList))

/-! ## General lemmas about the loop shapes used by the code -/

theorem foldl_append_eq_map {α β : Type} (f : α → β) (l : List α) (init : List β) :
    l.foldl (fun acc x => acc ++ [f x]) init = init ++ l.map f := by
  induction l generalizing init with
  | nil => simp
  | cons x xs ih => simp [List.foldl_cons, ih]

theorem foldl_optAppend_eq_filterMap {α β : Type} (f : α → Option β) (l : List α)
    (init : List β) :
    l.foldl (fun acc x => match f x with | some b => acc ++ [b] | none => acc) init =
      init ++ l.filterMap f := by
  induction l generalizing init with
  | nil => simp
  | cons x xs ih =>
    cases h : f x <;> simp [List.foldl_cons, h, ih]

theorem sqlSecurityCheck_eq_allowed (sql : String) :
    sqlSecurityCheck sql = .allowed ↔
      "SELECT".toList.isPrefixOf (sqlUpperOf sql) = true ∧
        ∀ kw ∈ dangerousKeywords, containsWord kw (sqlUpperOf sql) = false := by
  unfold sqlSecurityCheck sqlUpperOf
  by_cases hq : pyStrip sql.toList = []
  · simp only [hq, if_pos rfl]
    refine iff_of_false (by simp) ?_
    rintro ⟨h1, -⟩
    exact absurd h1 (by decide)
  · simp only [if_neg hq]
    by_cases hp : "SELECT".toList.isPrefixOf (pyStrip (pyUpper (pyStrip sql.toList))) = true
    · simp only [hp, Bool.not_true, Bool.false_eq_true, if_false]
      cases hf : dangerousKeywords.find?
          (fun kw => containsWord kw (pyStrip (pyUpper (pyStrip sql.toList)))) with
      | some kw =>
        refine iff_of_false (by simp) ?_
        rintro ⟨-, h2⟩
        have hmem := List.mem_of_find?_eq_some hf
        have hkw := List.find?_some hf
        rw [h2 kw hmem] at hkw
        exact absurd hkw (by decide)
      | none =>
        refine iff_of_true rfl ⟨by trivial, ?_⟩
        intro kw hkw
        have := List.find?_eq_none.mp hf kw hkw
        simpa using this
    · have hp' : "SELECT".toList.isPrefixOf (pyStrip (pyUpper (pyStrip sql.toList))) = false :=
        Bool.not_eq_true _ ▸ Bool.eq_false_iff.mpr hp
      simp only [hp', Bool.not_false, if_true]
      exact iff_of_false (by simp) (fun h => by simpa using h.1)

/-- C1 (amended): every submitted SQL text is validated before any
database connection is opened — a rejection is independent of the
database; the text passes exactly when its normalized
(stripped-uppercased-stripped) form starts with `SELECT` and contains
none of the denylisted keywords as a whole word.  The input
`UPDATE T SET x=1` is rejected by the `SELECT`-prefix check with the
generic `Only SELECT statements are allowed` rejection (it never
reaches the keyword scan), while a `SELECT`-prefixed text containing a
denylisted word is rejected citing that keyword, and identifiers like
`createdAt` are never falsely flagged. -/
theorem C1_security_policy :
    (∀ sql : String,
      sqlSecurityCheck sql = .allowed ↔
        ("SELECT".toList.isPrefixOf (sqlUpperOf sql) = true ∧
          ∀ kw ∈ dangerousKeywords, containsWord kw (sqlUpperOf sql) = false)) ∧
    (∀ (sql : String) (db₁ db₂ : ℕ), sqlSecurityCheck sql ≠ .allowed →
      executeSqlEndpoint sql db₁ = executeSqlEndpoint sql db₂) ∧
    sqlSecurityCheck "UPDATE T SET x=1" = .notSelect ∧
    sqlSecurityCheck "SELECT createdAt FROM T" = .allowed ∧
    sqlSecurityCheck "SELECT id FROM T; DROP TABLE U" = .dangerousKeyword "DROP" := by
  refine ⟨sqlSecurityCheck_eq_allowed, ?_, by decide, by decide, by decide⟩
  intro sql db₁ db₂ h
  unfold executeSqlEndpoint
  cases hc : sqlSecurityCheck sql <;> simp_all

/-- Witness for C1: on the concrete input `UPDATE T SET x=1` the
endpoint's outcome is the same whatever the database would have
returned — nothing is executed. -/
theorem C1_security_policy_witness :
    executeSqlEndpoint "UPDATE T SET x=1" (0 : ℕ) = executeSqlEndpoint "UPDATE T SET x=1" 1 :=
  C1_security_policy.2.1 "UPDATE T SET x=1" 0 1 (by decide)

/-- C1 counterexample: the claim asserts the rejection of
`UPDATE T SET x=1` cites the `UPDATE` keyword; the code rejects it with
the generic not-a-SELECT error instead, and that rejection is not the
keyword-citing one. -/
theorem C1_counterexample :
    sqlSecurityCheck "UPDATE T SET x=1" = .notSelect ∧
      SqlCheckResult.notSelect ≠ .dangerousKeyword "UPDATE" := by
  exact ⟨by decide, by decide⟩

theorem foldl_colMatchStep_some (key c : String) (cols : List String) :
    cols.foldl (colMatchStep key) (some c) = some c := by
  induction cols with
  | nil => rfl
  | cons col rest ih => simpa [colMatchStep] using ih

/-- A column matches a binding key when any of the three per-column
strategies of the matching loop accepts it. -/
def colMatches (key col : String) : Bool :=
  decide (col = key) || decide (normalizeKey col.toList = normalizeKey key.toList) ||
    decide (pyLower col.toList = pyLower key.toList)

theorem colMatchStep_none (key col : String) :
    colMatchStep key none col = if colMatches key col then some col else none := by
  unfold colMatchStep colMatches
  by_cases h1 : col = key <;>
    by_cases h2 : normalizeKey col.data = normalizeKey key.data <;>
      by_cases h3 : pyLower col.data = pyLower key.data <;>
        simp [h1, h2, h3]

theorem findColMatch_eq_find? (key : String) (cols : List String)
    (hk : ¬(key = "#" ∨ normalizeKey key.toList = ['#'])) :
    findColMatch key cols = cols.find? (colMatches key) := by
  unfold findColMatch
  rw [if_neg (by simpa using hk)]
  induction cols with
  | nil => rfl
  | cons col rest ih =>
    rw [List.foldl_cons, colMatchStep_none, List.find?_cons]
    cases hc : colMatches key col with
    | true => rw [if_pos rfl]; exact foldl_colMatchStep_some _ _ _
    | false => rw [if_neg (by simp)]; exact ih

/-- C2 (amended): the binding key is resolved by a single in-order scan
of the column list — the first column matching under *any* of the three
strategies (exact; case-insensitive on the portion after the last dot;
case-insensitive full string) wins, so an earlier suffix match beats a
later exact match; a key naming the index column resolves to `#`
directly; and when no column matches, charting is skipped while the
tabular output is still returned. -/
theorem C2_column_resolution :
    (∀ (key : String) (cols : List String),
      ¬(key = "#" ∨ normalizeKey key.toList = ['#']) →
      findColMatch key cols = cols.find? (colMatches key)) ∧
    (∀ cols : List String, findColMatch "#" cols = some "#") ∧
    exportShape ["a"] ["a"] [[.str "v"]] (some ⟨some "zz", some "ww", none⟩) =
      ⟨["#", "a"], [["1", "v"]], none⟩ := by
  refine ⟨findColMatch_eq_find?, ?_, by decide⟩
  intro cols
  unfold findColMatch
  rw [if_pos (by decide)]
  exact foldl_colMatchStep_some _ _ _

/-- Witness for C2: the in-order-scan characterisation applied to the
concrete column list `[t.name, Name]` and key `Name`. -/
theorem C2_column_resolution_witness :
    findColMatch "Name" ["t.name", "Name"] = ["t.name", "Name"].find? (colMatches "Name") :=
  C2_column_resolution.1 "Name" ["t.name", "Name"] (by decide)

/-- C2 counterexample: with result columns `[t.name, Name]` and key
`Name`, an exact match (`Name`) is present, yet the code resolves to
`t.name` because the earlier column already matched by the suffix
strategy — the strict exact-first priority over the whole list (the
specification-side matcher) would pick `Name`. -/
theorem C2_counterexample :
    findColMatch "Name" ["t.name", "Name"] = some "t.name" ∧
      ("t.name" : String) ≠ "Name" ∧
      findColMatchSpec "Name" ["t.name", "Name"] = some "Name" := by
  refine ⟨by decide, by decide, by decide⟩

theorem pyDictInsert_of_not_mem {α : Type} (d : List (String × α)) (k : String) (v : α)
    (h : ∀ q ∈ d, q.1 ≠ k) : pyDictInsert d k v = d ++ [(k, v)] := by
  unfold pyDictInsert
  rw [if_neg]
  simp only [List.any_eq_true, decide_eq_true_eq]
  push_neg
  exact h

theorem foldl_pyDictInsert_eq_append {α : Type} (g : ℕ → α) (ps : List (ℕ × String))
    (d : List (String × α)) (h1 : (ps.map Prod.snd).Nodup)
    (h2 : ∀ p ∈ ps, ∀ q ∈ d, q.1 ≠ p.2) :
    ps.foldl (fun d ic => pyDictInsert d ic.2 (g ic.1)) d =
      d ++ ps.map (fun ic => (ic.2, g ic.1)) := by
  induction ps generalizing d with
  | nil => simp
  | cons p ps ih =>
    rw [List.map_cons] at h1
    have h1' := List.nodup_cons.mp h1
    rw [List.foldl_cons,
      pyDictInsert_of_not_mem _ _ _ (fun q hq => h2 p (List.mem_cons_self _ _) q hq)]
    rw [ih (d ++ [(p.2, g p.1)]) h1'.2 ?_]
    · simp
    · intro p' hp' q hq
      rcases List.mem_append.mp hq with hq | hq
      · exact h2 p' (List.mem_cons_of_mem _ hp') q hq
      · have hq' : q = (p.2, g p.1) := by simpa using hq
        subst hq'
        exact fun he => h1'.1 (by
          rw [show p.2 = p'.2 from he]
          exact List.mem_map_of_mem Prod.snd hp')

theorem pyDictBuild_eq_map {α : Type} (cols : List String) (g : ℕ → α) (h : cols.Nodup) :
    pyDictBuild cols g = cols.enum.map (fun ic => (ic.2, g ic.1)) := by
  unfold pyDictBuild
  rw [foldl_pyDictInsert_eq_append g cols.enum []
    (by rw [List.enum_map_snd]; exact h) (by intro p hp q hq; cases hq)]
  simp

theorem degradedFetch_stops_at_fetchError (cols : List String) (maxRows : Int)
    (count : Int) (pre rest : List FetchResult) :
    degradedFetch cols maxRows count (pre ++ .fetchError :: rest) =
      degradedFetch cols maxRows count pre := by
  induction pre generalizing count with
  | nil =>
    by_cases h : count < maxRows <;> simp [degradedFetch, h]
  | cons item pre ih =>
    simp only [List.cons_append]
    unfold degradedFetch
    by_cases h : count < maxRows
    · simp only [if_pos h]
      cases item with
      | fetchError => rfl
      | row _cells =>
        dsimp only
        split
        · exact ih count
        · exact congrArg _ (ih (count + 1))
    · simp [if_neg h]

/-- C3: in the degraded fetch path the request still succeeds — the
response built from any row-by-row script is `success = true` and
carries exactly the accumulated rows; a row-level fetch error at any
point leaves the rows accumulated before it untouched (whatever the
cursor would have produced afterwards is irrelevant); and each cell of
a fetched row is produced from its own guarded access alone, so a
failing column yields its placeholder in that cell while every other
column of the row keeps its converted value. -/
theorem C3_degraded_fetch :
    (∀ (cols : List String) (maxRows : Int) (script : List FetchResult),
      (sqlExecResponse cols maxRows (.bulkFailed script)).success = true ∧
      (sqlExecResponse cols maxRows (.bulkFailed script)).rows =
        degradedFetch cols maxRows 0 script) ∧
    (∀ (cols : List String) (maxRows count : Int) (pre rest : List FetchResult),
      degradedFetch cols maxRows count (pre ++ .fetchError :: rest) =
        degradedFetch cols maxRows count pre) ∧
    (∀ (cols : List String) (cells : List CellAccess), cols.Nodup →
      degradedRowDict cols cells =
        cols.enum.map (fun ic => (ic.2, cellAccessString (cells.get? ic.1)))) :=
  ⟨fun _ _ _ => ⟨rfl, rfl⟩,
   fun cols m count pre rest => degradedFetch_stops_at_fetchError cols m count pre rest,
   fun cols _cells h => pyDictBuild_eq_map cols _ h⟩

/-- Witness for C3: a row whose first column access raises gets the
placeholder in that cell only; the second column keeps its value. -/
theorem C3_degraded_fetch_witness :
    degradedRowDict ["a", "b"] [CellAccess.typeErr, .ok (.str "x")] =
      [("a", "[Unsupported Type]"), ("b", "x")] := by
  have h := C3_degraded_fetch.2.2 ["a", "b"] [CellAccess.typeErr, .ok (.str "x")] (by decide)
  rw [h]
  decide

theorem hash_not_mem_validColumns (cols : List String) : "#" ∉ validColumns cols := by
  intro h
  have := (List.mem_filter.mp h).2
  simp at this

theorem withIndexRows_heads (rows : List (List String)) :
    (withIndexRows rows).map List.head? =
      (List.range rows.length).map (fun i => some (Nat.repr (i + 1))) := by
  unfold withIndexRows
  rw [List.map_map]
  have : (List.head? ∘ fun ir : ℕ × List String => Nat.repr (ir.1 + 1) :: ir.2) =
      (fun i => some (Nat.repr (i + 1))) ∘ Prod.fst := by
    funext ir
    rfl
  rw [this, ← List.map_map, List.enum_map_fst]

theorem withIndexRows_tails (rows : List (List String)) :
    (withIndexRows rows).map List.tail = rows := by
  unfold withIndexRows
  rw [List.map_map]
  have : (List.tail ∘ fun ir : ℕ × List String => Nat.repr (ir.1 + 1) :: ir.2) = Prod.snd := by
    funext ir
    rfl
  rw [this, List.enum_map_snd]

/-- C4: on the export endpoint the sentinel `#` is filtered out of the
columns handed to the query builder, appears exactly once — first — in
the output column list, and every output row is the stringified data
row with its 1-based position prepended in input order.  On the preview
endpoint, however, the index is prepended to the *unfiltered* request
columns: for the request columns `[#, name]` the preview returns the
column list `[#, #, name]` (the sentinel twice), and `dict(zip(...))`
then collapses the duplicate key so the output row keeps neither the
index value nor the last data column — the concrete evaluation below
exhibits the bug. -/
theorem C4_index_column :
    (∀ cols : List String, "#" ∉ validColumns cols) ∧
    (∀ (requestCols dbCols : List String) (dbRows : List (List Cell))
        (cfg : Option ChartConfig),
      (exportShape requestCols dbCols dbRows cfg).columns = "#" :: validColumns requestCols ∧
      (exportShape requestCols dbCols dbRows cfg).columns.count "#" = 1 ∧
      (exportShape requestCols dbCols dbRows cfg).rows.map List.head? =
        (List.range dbRows.length).map (fun i => some (Nat.repr (i + 1))) ∧
      (exportShape requestCols dbCols dbRows cfg).rows.map List.tail =
        dbRows.map rowListOf) ∧
    previewShape ["#", "name"] [[.str "alice"]] 200 =
      ⟨["#", "#", "name"], [[("#", "alice")]], 1⟩ := by
  refine ⟨hash_not_mem_validColumns, ?_, by decide⟩
  intro requestCols dbCols dbRows cfg
  refine ⟨rfl, ?_, ?_, ?_⟩
  · show (("#" :: validColumns requestCols).count "#") = 1
    rw [List.count_cons_self, List.count_eq_zero.mpr (hash_not_mem_validColumns requestCols)]
  · show (withIndexRows (dbRows.map rowListOf)).map List.head? = _
    rw [withIndexRows_heads, List.length_map]
  · show (withIndexRows (dbRows.map rowListOf)).map List.tail = _
    rw [withIndexRows_tails]

/-- The per-row contribution of the numeric extraction loop, as an
optional pair: `some (label, value)` when the row's x- and y-cells are
non-null and the y-cell converts, `none` when the row is skipped. -/
def extractPair (xcol ycol : String) (r : RowD) : Option (String × ℚ) :=
  if rowGet r xcol ≠ .null ∧ rowGet r ycol ≠ .null then
    (extractNum (rowGet r ycol)).map (fun q => (pyStr (rowGet r xcol), q))
  else none

theorem foldl_pairAppend_eq_filterMap {α β γ : Type} (f : α → Option (β × γ)) (l : List α)
    (init : List β × List γ) :
    l.foldl (fun lv x =>
        match f x with
        | some bg => (lv.1 ++ [bg.1], lv.2 ++ [bg.2])
        | none => lv) init =
      (init.1 ++ (l.filterMap f).map Prod.fst, init.2 ++ (l.filterMap f).map Prod.snd) := by
  induction l generalizing init with
  | nil => simp
  | cons x xs ih => cases h : f x <;> simp [h, ih]

theorem sampleYVals_eq_filterMap (ycol : String) (dicts : List RowD) :
    sampleYVals ycol dicts =
      (dicts.take 10).filterMap
        (fun r => if rowGet r ycol = .null then none else some (rowGet r ycol)) := by
  have base := foldl_optAppend_eq_filterMap
    (fun r => if rowGet r ycol = Cell.null then none else some (rowGet r ycol)) (dicts.take 10) []
  rw [List.nil_append] at base
  rw [← base]
  unfold sampleYVals
  congr 1
  funext acc r
  by_cases h : rowGet r ycol = Cell.null <;> simp [h]

theorem numericExtraction_eq_filterMap (xcol ycol : String) (dicts : List RowD) :
    numericExtraction xcol ycol dicts =
      ((dicts.filterMap (extractPair xcol ycol)).map Prod.fst,
        (dicts.filterMap (extractPair xcol ycol)).map Prod.snd) := by
  have base := foldl_pairAppend_eq_filterMap (extractPair xcol ycol) dicts ([], [])
  simp only [List.nil_append] at base
  rw [← base]
  unfold numericExtraction
  congr 1
  funext lv r
  unfold extractPair
  by_cases h : rowGet r xcol ≠ Cell.null ∧ rowGet r ycol ≠ Cell.null
  · cases hq : extractNum (rowGet r ycol) <;> simp [h, hq]
  · simp [h]

/-- C5: the numeric-vs-categorical judgment for the y-column depends
only on the first 10 rows — it is the success of `float()` on the first
non-null sample among them; for a non-index y-column judged numeric,
the produced labels/values are exactly the non-skipped rows (a row is
skipped exactly when its x- or y-value is null or its y-value fails
numeric conversion); and on the rows
`[{month: Jan, count: "5"}, {month: Feb, count: "bad"}]` with
`xKey = month`, `yKey = count` the chart dataset is exactly
`labels = [Jan]`, `values = [5.0]`. -/
theorem C5_numeric_inference :
    (∀ (ycol : String) (d1 d2 : List RowD), d1.take 10 = d2.take 10 →
      isYNumeric ycol d1 = isYNumeric ycol d2) ∧
    (∀ (ycol : String) (dicts : List RowD),
      isYNumeric ycol dicts =
        (((dicts.take 10).filterMap
            (fun r => if rowGet r ycol = .null then none else some (rowGet r ycol))).head?.map
          (fun v => (pyFloatCell v).isSome)).getD false) ∧
    (∀ (xcol ycol chartType : String) (dicts : List RowD), ycol ≠ "#" →
      isYNumeric ycol dicts = true →
      chartLabelsValues xcol ycol chartType dicts = numericExtraction xcol ycol dicts) ∧
    (∀ (xcol ycol : String) (dicts : List RowD),
      numericExtraction xcol ycol dicts =
        ((dicts.filterMap (extractPair xcol ycol)).map Prod.fst,
          (dicts.filterMap (extractPair xcol ycol)).map Prod.snd)) ∧
    (exportShape ["month", "count"] ["month", "count"]
        [[.str "Jan", .str "5"], [.str "Feb", .str "bad"]]
        (some ⟨some "month", some "count", none⟩)).chart =
      some ⟨["Jan"], [5], "bar"⟩ := by
  refine ⟨?_, ?_, ?_, numericExtraction_eq_filterMap, by decide⟩
  · intro ycol d1 d2 h
    unfold isYNumeric sampleYVals
    rw [h]
  · intro ycol dicts
    unfold isYNumeric
    rw [sampleYVals_eq_filterMap]
    cases h : ((dicts.take 10).filterMap
        (fun r => if rowGet r ycol = .null then none else some (rowGet r ycol))).head? <;>
      simp [h]
  · intro xcol ycol chartType dicts hy hnum
    unfold chartLabelsValues
    rw [if_neg hy, if_neg (by simp [hnum])]

/-- Witness for C5: two row lists agreeing on their first 10 rows get
the same numeric judgment, even though the 11th row differs. -/
theorem C5_numeric_inference_witness :
    isYNumeric "count"
        (List.replicate 10 [("count", Cell.str "5")] ++ [[("count", Cell.str "zzz")]]) =
      isYNumeric "count" (List.replicate 10 [("count", Cell.str "5")]) :=
  C5_numeric_inference.1 "count" _ _ (by decide)

/-- The list of stringified non-null x-cells the counting branch
collects (lines 541-545). -/
def xValuesOf (xcol : String) (dicts : List RowD) : List String :=
  dicts.filterMap (fun r =>
    if rowGet r xcol = Cell.null then none else some (pyStr (rowGet r xcol)))

theorem mem_foldl_firstSeen (xs acc : List String) (a : String) :
    a ∈ xs.foldl (fun acc x => if x ∈ acc then acc else acc ++ [x]) acc ↔
      a ∈ acc ∨ a ∈ xs := by
  induction xs generalizing acc with
  | nil => simp
  | cons x xs ih =>
    rw [List.foldl_cons]
    by_cases h : x ∈ acc
    · rw [if_pos h, ih]
      constructor
      · rintro (ha | ha)
        exacts [Or.inl ha, Or.inr (List.mem_cons_of_mem _ ha)]
      · rintro (ha | ha)
        · exact Or.inl ha
        · rcases List.mem_cons.mp ha with rfl | ha
          exacts [Or.inl h, Or.inr ha]
    · rw [if_neg h, ih]
      simp only [List.mem_append, List.mem_cons, List.mem_singleton]
      tauto

theorem mem_firstSeenKeys (a : String) (xs : List String) :
    a ∈ firstSeenKeys xs ↔ a ∈ xs := by
  unfold firstSeenKeys
  rw [mem_foldl_firstSeen]
  simp

theorem counterFold_append (xs : List String) (x : String) :
    counterFold (xs ++ [x]) =
      if (counterFold xs).any (fun p => p.1 = x) then
        (counterFold xs).map (fun p => if p.1 = x then (p.1, p.2 + 1) else p)
      else counterFold xs ++ [(x, 1)] := by
  unfold counterFold
  rw [List.foldl_append]
  rfl

theorem firstSeenKeys_append (xs : List String) (x : String) :
    firstSeenKeys (xs ++ [x]) =
      if x ∈ firstSeenKeys xs then firstSeenKeys xs else firstSeenKeys xs ++ [x] := by
  unfold firstSeenKeys
  rw [List.foldl_append]
  rfl

theorem counterFold_eq_firstSeen_counts (xs : List String) :
    counterFold xs = (firstSeenKeys xs).map (fun k => (k, xs.count k)) := by
  induction xs using List.reverseRecOn with
  | nil => rfl
  | append_singleton xs x ih =>
    rw [counterFold_append, firstSeenKeys_append, ih]
    have hcount : ∀ k : String, (xs ++ [x]).count k = xs.count k + if x = k then 1 else 0 := by
      intro k
      rw [List.count_append, List.count_singleton']
    by_cases hx : x ∈ firstSeenKeys xs
    · have hany : ((firstSeenKeys xs).map (fun k => (k, xs.count k))).any
          (fun p => p.1 = x) = true := by
        rw [List.any_eq_true]
        exact ⟨(x, xs.count x), List.mem_map_of_mem _ hx, by simp⟩
      rw [if_pos hany, if_pos hx, List.map_map]
      apply List.map_congr_left
      intro k hk
      by_cases hkx : k = x
      · simp [hkx, hcount]
      · simp [hcount, hkx, Ne.symm hkx]
    · have hany : ((firstSeenKeys xs).map (fun k => (k, xs.count k))).any
          (fun p => p.1 = x) = false := by
        rw [List.any_eq_false]
        intro p hp
        obtain ⟨k, hk, rfl⟩ := List.mem_map.mp hp
        simp only [decide_eq_true_eq]
        exact fun he => hx (he ▸ hk)
      rw [hany, if_neg (by simp), if_neg hx, List.map_append]
      have hxs : x ∉ xs := fun h => hx ((mem_firstSeenKeys x xs).mpr h)
      congr 1
      · apply List.map_congr_left
        intro k hk
        have hkx : x ≠ k := fun he => hx (he ▸ hk)
        simp [hcount, hkx]
      · simp [hcount, List.count_eq_zero.mpr hxs]

theorem countAggregation_eq (xcol : String) (dicts : List RowD) :
    countAggregation xcol dicts =
      (firstSeenKeys (xValuesOf xcol dicts),
        (firstSeenKeys (xValuesOf xcol dicts)).map
          (fun k => ((xValuesOf xcol dicts).count k : ℚ))) := by
  have base := foldl_optAppend_eq_filterMap
    (fun r => if rowGet r xcol = Cell.null then none else some (pyStr (rowGet r xcol))) dicts []
  rw [List.nil_append] at base
  have hx : dicts.foldl (fun acc r =>
      let v := rowGet r xcol
      if v = .null then acc else acc ++ [pyStr v]) [] = xValuesOf xcol dicts := by
    rw [show (xValuesOf xcol dicts) = _ from base.symm]
    congr 1
    funext acc r
    by_cases h : rowGet r xcol = Cell.null <;> simp [h]
  unfold countAggregation
  dsimp only
  rw [hx, counterFold_eq_firstSeen_counts, List.map_map, List.map_map]
  have h1 : (Prod.fst ∘ fun k : String => (k, List.count k (xValuesOf xcol dicts))) = id := rfl
  have h2 : ((fun p : String × ℕ => (p.2 : ℚ)) ∘ fun k : String =>
      (k, List.count k (xValuesOf xcol dicts))) =
      (fun k => (List.count k (xValuesOf xcol dicts) : ℚ)) := rfl
  rw [h1, h2, List.map_id]

/-- C6: when the resolved y-key is the index column the chart is a
count aggregation — the labels are the distinct stringified non-null
x-values in first-seen order and each value is that label's occurrence
count; in particular for `xKey = status`, `yKey = #` over the rows
`[{status: open}, {status: open}, {status: closed}]` the dataset is
`labels = [open, closed]`, `values = [2, 1]`. -/
theorem C6_count_aggregation :
    (∀ xs : List String, counterFold xs = (firstSeenKeys xs).map (fun k => (k, xs.count k))) ∧
    (∀ (xcol : String) (dicts : List RowD),
      countAggregation xcol dicts =
        (firstSeenKeys (xValuesOf xcol dicts),
          (firstSeenKeys (xValuesOf xcol dicts)).map
            (fun k => ((xValuesOf xcol dicts).count k : ℚ)))) ∧
    (∀ (xcol chartType : String) (dicts : List RowD),
      chartLabelsValues xcol "#" chartType dicts = countAggregation xcol dicts) ∧
    (exportShape ["status"] ["status"]
        [[.str "open"], [.str "open"], [.str "closed"]]
        (some ⟨some "status", some "#", none⟩)).chart =
      some ⟨["open", "closed"], [2, 1], "bar"⟩ := by
  refine ⟨counterFold_eq_firstSeen_counts, countAggregation_eq, ?_, by decide⟩
  intro xcol chartType dicts
  unfold chartLabelsValues
  rw [if_pos rfl]

theorem chartLabelsValues_length (xcol ycol t : String) (dicts : List RowD) :
    (chartLabelsValues xcol ycol t dicts).1.length =
      (chartLabelsValues xcol ycol t dicts).2.length := by
  unfold chartLabelsValues
  split
  · unfold countAggregation
    dsimp only
    simp
  · split
    · unfold pieDistribution
      dsimp only
      simp
    · rw [numericExtraction_eq_filterMap]
      simp

theorem shapeChart_some (rawCfg : Option ChartConfig) (dicts : List RowD) (cd : ChartData)
    (h : shapeChart rawCfg dicts = some cd) :
    ∃ xc yc t, cd.labels = (chartLabelsValues xc yc t dicts).1 ∧
      cd.values = (chartLabelsValues xc yc t dicts).2 ∧
      0 < (chartLabelsValues xc yc t dicts).1.length ∧
      0 < (chartLabelsValues xc yc t dicts).2.length := by
  unfold shapeChart at h
  cases hf : filterChartConfig rawCfg with
  | none => rw [hf] at h; cases h
  | some cfg =>
    rw [hf] at h
    dsimp only at h
    split at h
    · cases hx : findColMatch (String.mk (pyStrip (cfg.xKey.getD "").toList))
          ((dicts.head?.getD []).map Prod.fst) with
      | none => rw [hx] at h; cases h
      | some xc =>
        cases hy : findColMatch (String.mk (pyStrip (cfg.yKey.getD "").toList))
            ((dicts.head?.getD []).map Prod.fst) with
        | none => rw [hx, hy] at h; cases h
        | some yc =>
          rw [hx, hy] at h
          dsimp only at h
          split at h
          · rename_i hcond
            injection h with h
            subst h
            exact ⟨xc, yc, cfg.ctype.getD "bar", rfl, rfl, hcond.1, hcond.2⟩
          · cases h
    · cases h

/-- C7: every chart dataset the shaping stage emits has as many labels
as values and both non-empty (the dataset is attached only when the
emission check passes), and the tabular output of the export pipeline
is the same whatever the chart configuration — charting can only add a
dataset, never change or suppress the tabular result. -/
theorem C7_chart_dataset_invariant :
    (∀ (rawCfg : Option ChartConfig) (dicts : List RowD) (cd : ChartData),
      shapeChart rawCfg dicts = some cd →
        cd.labels.length = cd.values.length ∧ cd.labels ≠ [] ∧ cd.values ≠ []) ∧
    (∀ (requestCols dbCols : List String) (dbRows : List (List Cell))
        (cfg1 cfg2 : Option ChartConfig),
      (exportShape requestCols dbCols dbRows cfg1).columns =
        (exportShape requestCols dbCols dbRows cfg2).columns ∧
      (exportShape requestCols dbCols dbRows cfg1).rows =
        (exportShape requestCols dbCols dbRows cfg2).rows) := by
  refine ⟨?_, fun _ _ _ _ _ => ⟨rfl, rfl⟩⟩
  intro rawCfg dicts cd h
  obtain ⟨xc, yc, t, hl, hv, h1, h2⟩ := shapeChart_some rawCfg dicts cd h
  refine ⟨?_, ?_, ?_⟩
  · rw [hl, hv, chartLabelsValues_length]
  · rw [hl]
    exact List.ne_nil_of_length_pos h1
  · rw [hv]
    exact List.ne_nil_of_length_pos h2

/-- Witness for C7: the invariant applied to the concrete count
aggregation dataset produced for the status rows. -/
theorem C7_chart_dataset_invariant_witness :
    (ChartData.mk ["open", "closed"] [2, 1] "bar").labels.length =
      (ChartData.mk ["open", "closed"] [2, 1] "bar").values.length ∧
      (ChartData.mk ["open", "closed"] [2, 1] "bar").labels ≠ [] ∧
      (ChartData.mk ["open", "closed"] [2, 1] "bar").values ≠ [] :=
  C7_chart_dataset_invariant.1 (some ⟨some "status", some "#", none⟩)
    (withIndexDicts [[("status", .str "open")], [("status", .str "open")],
      [("status", .str "closed")]])
    ⟨["open", "closed"], [2, 1], "bar"⟩ (by decide)

theorem executeBulk_eq_map (cols : List String) (maxRows : Int) (rows : List (List Cell)) :
    executeBulk cols maxRows rows = (pySlice maxRows rows).map (bulkRowDict cols) := by
  unfold executeBulk
  simpa using foldl_append_eq_map (bulkRowDict cols) (pySlice maxRows rows) []

theorem pySlice_length_le {α : Type} (n : Int) (hn : 0 ≤ n) (xs : List α) :
    (pySlice n xs).length ≤ n.toNat := by
  unfold pySlice
  rw [if_pos hn]
  simp [List.length_take]

theorem degradedFetch_length_le (cols : List String) (maxRows : Int)
    (script : List FetchResult) : ∀ count : Int,
    (degradedFetch cols maxRows count script).length ≤ (maxRows - count).toNat := by
  induction script with
  | nil => intro count; simp [degradedFetch]
  | cons item rest ih =>
    intro count
    unfold degradedFetch
    by_cases h : count < maxRows
    · rw [if_pos h]
      cases item with
      | fetchError => simp
      | row cells =>
        dsimp only
        split
        · exact (ih count).trans (le_refl _)
        · simp only [List.length_cons]
          have := ih (count + 1)
          omega
    · rw [if_neg h]
      simp

/-- C8: the executor returns at most `limit` rows on both fetch paths
(the default limit when the request supplies none is 1000), every cell
of the bulk result is the `convert_value_safely` stringification of the
corresponding database cell, and `convert_value_safely` — a total
function, hence never raising — maps null to the empty string,
primitive scalars to their string form, date/time values to their
ISO-8601 rendering, and any other value to its best-effort string with
the placeholder as last resort. -/
theorem C8_row_limit_and_conversion :
    getLimit none = 1000 ∧
    (∀ (cols : List String) (rows : List (List Cell)) (limit : Int), 0 ≤ limit →
      (sqlExecResponse cols limit (.bulk rows)).rows.length ≤ limit.toNat) ∧
    (∀ (cols : List String) (script : List FetchResult) (limit : Int),
      (sqlExecResponse cols limit (.bulkFailed script)).rows.length ≤ limit.toNat) ∧
    (∀ (cols : List String) (rows : List (List Cell)) (limit : Int), cols.Nodup →
      (sqlExecResponse cols limit (.bulk rows)).rows =
        (pySlice limit rows).map (fun row =>
          cols.enum.map (fun ic => (ic.2, convert_value_safely (row.getD ic.1 .null))))) ∧
    (convert_value_safely .null = "" ∧
      (∀ s, convert_value_safely (.str s) = s) ∧
      (∀ n, convert_value_safely (.int n) = toString n) ∧
      (∀ b, convert_value_safely (.bool b) = if b then "True" else "False") ∧
      (∀ q, convert_value_safely (.num q) = floatStr q) ∧
      (∀ iso, convert_value_safely (.datetime iso) = iso) ∧
      (∀ iso, convert_value_safely (.date iso) = iso) ∧
      (∀ sOk sF rOk rF, convert_value_safely (.other sOk sF rOk rF) =
        if sOk then sF else if rOk then rF else "[Unsupported Type]")) := by
  refine ⟨rfl, ?_, ?_, ?_, rfl, fun _ => rfl, fun _ => rfl, fun _ => rfl, fun _ => rfl,
    fun _ => rfl, fun _ => rfl, fun _ _ _ _ => rfl⟩
  · intro cols rows limit hl
    show (executeBulk cols limit rows).length ≤ limit.toNat
    rw [executeBulk_eq_map, List.length_map]
    exact pySlice_length_le limit hl rows
  · intro cols script limit
    show (degradedFetch cols limit 0 script).length ≤ limit.toNat
    simpa using degradedFetch_length_le cols limit script 0
  · intro cols rows limit hnd
    show executeBulk cols limit rows = _
    rw [executeBulk_eq_map]
    apply List.map_congr_left
    intro row _
    exact pyDictBuild_eq_map cols _ hnd

/-- Witness for C8: three fetched rows with a limit of 2 produce at
most 2 rows. -/
theorem C8_row_limit_and_conversion_witness :
    (sqlExecResponse ["a"] 2 (.bulk [[.int 7], [.null], [.str "x"]])).rows.length ≤
      (2 : Int).toNat :=
  C8_row_limit_and_conversion.2.1 ["a"] [[.int 7], [.null], [.str "x"]] 2 (by decide)

/-- C9: the resolved export format is always one of `excel`, `pdf`,
`word`; the format field is normalised case-insensitively after
stripping, the aliases `xlsx`/`xls` map to `excel` and `doc`/`docx` to
`word`, and an unrecognised or non-string format defaults to `excel`. -/
theorem C9_format_resolution :
    (∀ raw : Option String,
      resolveFormat raw = "excel" ∨ resolveFormat raw = "pdf" ∨ resolveFormat raw = "word") ∧
    resolveFormat (some "xlsx") = "excel" ∧
    resolveFormat (some "xls") = "excel" ∧
    resolveFormat (some "doc") = "word" ∧
    resolveFormat (some "docx") = "word" ∧
    resolveFormat (some "XLSX") = "excel" ∧
    resolveFormat (some "  PDF ") = "pdf" ∧
    resolveFormat (some "Word") = "word" ∧
    resolveFormat (some "csv") = "excel" ∧
    resolveFormat none = "excel" := by
  refine ⟨?_, by decide, by decide, by decide, by decide, by decide, by decide, by decide,
    by decide, by decide⟩
  intro raw
  cases raw with
  | none => left; decide
  | some s =>
    unfold resolveFormat
    dsimp only
    split
    · rename_i h
      have h' : formatMapping (pyStrip (pyLower s.toList)) = "excel".toList ∨
          formatMapping (pyStrip (pyLower s.toList)) = "pdf".toList ∨
          formatMapping (pyStrip (pyLower s.toList)) = "word".toList := by
        simpa [or_assoc] using h
      rcases h' with h' | h' | h'
      · left; rw [h']; decide
      · right; left; rw [h']; decide
      · right; right; rw [h']; decide
    · left; rfl

theorem append_ne_empty_of_left (a b : String) (ha : a ≠ "") : a ++ b ≠ "" := by
  intro hc
  apply ha
  have hlen := congrArg String.length hc
  rw [String.length_append] at hlen
  have h0 : ("" : String).length = 0 := rfl
  have hz : a.length = 0 := by omega
  exact String.ext (by simpa using List.length_eq_zero.mp hz)

theorem builder_deny_all (access : UserFunctionAccess) (sel : Option String)
    (big1 big2 : String) (hsel : truthyOpt sel = false)
    (hsuper : access.is_super_admin = false) (hids : access.function_ids = []) :
    (if truthyOpt sel then
        (if !access.is_super_admin && !(access.function_ids.contains (sel.getD "")) then
          " AND 1 = 0" else big1)
      else if access.is_super_admin then ""
      else if access.function_ids.isEmpty then " AND 1 = 0" else big2) = " AND 1 = 0" := by
  simp [hsel, hsuper, hids]

theorem builder_empty_iff (access : UserFunctionAccess) (sel : Option String)
    (big1 big2 : String) (h1 : big1 ≠ "") (h2 : big2 ≠ "") :
    ((if truthyOpt sel then
        (if !access.is_super_admin && !(access.function_ids.contains (sel.getD "")) then
          " AND 1 = 0" else big1)
      else if access.is_super_admin then ""
      else if access.function_ids.isEmpty then " AND 1 = 0" else big2) = "" ↔
      access.is_super_admin = true ∧ truthyOpt sel = false) := by
  constructor
  · intro h
    by_cases hsel : truthyOpt sel = true
    · rw [if_pos hsel] at h
      split at h
      · exact absurd h (by decide)
      · exact absurd h h1
    · have hsel' : truthyOpt sel = false := Bool.eq_false_iff.mpr hsel
      rw [hsel'] at h
      rw [if_neg (by simp)] at h
      by_cases hsup : access.is_super_admin = true
      · exact ⟨hsup, hsel'⟩
      · rw [if_neg (by simpa using hsup)] at h
        split at h
        · exact absurd h (by decide)
        · exact absurd h h2
  · rintro ⟨hsup, hsel⟩
    rw [hsel]
    rw [if_neg (by simp), if_pos (by simp [hsup])]

/-- C10: for a non-super-admin access with no assigned functions and no
selected function, all four filter builders return the deny-all
fragment ` AND 1 = 0` — they fail closed; and each builder returns the
empty string (no filter at all) exactly when the access is super-admin
and no function is selected. -/
theorem C10_fail_closed_filters :
    (∀ (ta : String) (access : UserFunctionAccess) (sel : Option String),
      truthyOpt sel = false → access.is_super_admin = false → access.function_ids = [] →
      build_control_function_filter ta access sel = " AND 1 = 0" ∧
      build_risk_function_filter ta access sel = " AND 1 = 0" ∧
      build_kri_function_filter ta access sel = " AND 1 = 0" ∧
      build_incident_function_filter ta access sel = " AND 1 = 0") ∧
    (∀ (ta : String) (access : UserFunctionAccess) (sel : Option String),
      (build_control_function_filter ta access sel = "" ↔
        access.is_super_admin = true ∧ truthyOpt sel = false) ∧
      (build_risk_function_filter ta access sel = "" ↔
        access.is_super_admin = true ∧ truthyOpt sel = false) ∧
      (build_kri_function_filter ta access sel = "" ↔
        access.is_super_admin = true ∧ truthyOpt sel = false) ∧
      (build_incident_function_filter ta access sel = "" ↔
        access.is_super_admin = true ∧ truthyOpt sel = false)) := by
  constructor
  · intro ta access sel hsel hsuper hids
    exact ⟨builder_deny_all access sel _ _ hsel hsuper hids,
      builder_deny_all access sel _ _ hsel hsuper hids,
      builder_deny_all access sel _ _ hsel hsuper hids,
      builder_deny_all access sel _ _ hsel hsuper hids⟩
  · intro ta access sel
    refine ⟨builder_empty_iff access sel _ _ ?_ ?_, builder_empty_iff access sel _ _ ?_ ?_,
      builder_empty_iff access sel _ _ ?_ ?_, builder_empty_iff access sel _ _ ?_ ?_⟩ <;>
      · repeat' apply append_ne_empty_of_left
        decide

/-- Witness for C10: the deny-all outcome at a concrete
empty-function-list non-admin access. -/
theorem C10_fail_closed_filters_witness :
    build_control_function_filter "c" ⟨false, []⟩ none = " AND 1 = 0" ∧
      build_kri_function_filter "k" ⟨false, []⟩ none = " AND 1 = 0" :=
  ⟨(C10_fail_closed_filters.1 "c" ⟨false, []⟩ none (by decide) (by decide) (by decide)).1,
    (C10_fail_closed_filters.1 "k" ⟨false, []⟩ none (by decide) (by decide) (by decide)).2.2.1⟩

end ReportApi
